import Mathlib

/-!
Verification of the NocturneAI social-engine crate
(`crates/social-engine/src/{lib,relationship_manager,social_learning,
network_analyzer}.rs`).

Conventions of the shallow embedding:
* `f32` arithmetic is modelled by exact rationals (`ℚ`); the decimal
  literals of the source (0.1, 1.5, ...) are translated to the same
  decimal literals over `ℚ`.
* `AgentId` (a UUID in the source) is modelled by `ℕ`; the random
  identifier `Uuid::new_v4()` carries no behavioural information for any
  operation verified here, so it is modelled by the constant `0`.
* `DateTime<Utc>` timestamps are modelled by `ℤ`; calls to `Utc::now()`
  inside a method become an explicit `now : ℤ` parameter of the
  embedded function.
* `HashMap<AgentId, _>` is modelled by an association list with unique
  keys (`lookupA` / `setA` below); `keys().count()` is its length.
* methods on `&mut self` returning `Result<T>` become functions
  `State → ... → State × Except String T`; an early `return Err(..)`
  yields the unchanged state paired with `.error`.
-/

/-- Agent identifier (`pub use uuid::Uuid as AgentId` in shared-types). -/
abbrev AgentId := Nat

/-- Outcome of an interaction (shared-types `InteractionOutcome`). -/
inductive InteractionOutcome where
  | Successful
  | Failed
  | Partial
  | Pending
deriving DecidableEq, Repr

/-- Types of connections between agents (shared-types `ConnectionType`). -/
inductive ConnectionType where
  | Collaboration
  | Mentorship
  | Competition
  | DataSharing
  | Learning
  | Consultation
  | Friendship
  | Professional
deriving DecidableEq, Repr

/-- Types of social interactions (social-engine `SocialInteractionType`). -/
inductive SocialInteractionType where
  | Collaboration
  | Mentorship
  | KnowledgeSharing
  | ProblemSolving
  | CreativeSession
  | FormalMeeting
  | CasualChat
  | PeerReview
  | Teaching
  | Learning
deriving DecidableEq, Repr

/-- The string produced by the `Display` impl of `SocialInteractionType`
(social_learning.rs lines 174-189): lowercase snake-case labels. -/
def SocialInteractionType.displayLabel : SocialInteractionType → String
  | .Collaboration => "collaboration"
  | .Mentorship => "mentorship"
  | .KnowledgeSharing => "knowledge_sharing"
  | .ProblemSolving => "problem_solving"
  | .CreativeSession => "creative_session"
  | .FormalMeeting => "formal_meeting"
  | .CasualChat => "casual_chat"
  | .PeerReview => "peer_review"
  | .Teaching => "teaching"
  | .Learning => "learning"

/-- The string produced by `format!("{:?}", interaction_type)` on a
`SocialInteractionType` value (Rust `Debug` derive prints the variant name). -/
def SocialInteractionType.debugLabel : SocialInteractionType → String
  | .Collaboration => "Collaboration"
  | .Mentorship => "Mentorship"
  | .KnowledgeSharing => "KnowledgeSharing"
  | .ProblemSolving => "ProblemSolving"
  | .CreativeSession => "CreativeSession"
  | .FormalMeeting => "FormalMeeting"
  | .CasualChat => "CasualChat"
  | .PeerReview => "PeerReview"
  | .Teaching => "Teaching"
  | .Learning => "Learning"

/-- Agent interaction data (shared-types `AgentInteraction`). -/
structure AgentInteraction where
  id : AgentId
  timestamp : Int
  participants : List AgentId
  interaction_type : String
  content : String
  outcome : InteractionOutcome
deriving DecidableEq, Repr

/-- Agent relationship data (relationship_manager `AgentRelationship`). -/
structure AgentRelationship where
  id : AgentId
  agent_id : AgentId
  other_agent_id : AgentId
  connection_type : ConnectionType
  strength : ℚ
  established_at : Int
  last_interaction : Int
  interaction_count : Nat
deriving DecidableEq, Repr

/-- Connection event kinds (relationship_manager `ConnectionEventType`). -/
inductive ConnectionEventType where
  | Established
  | StrengthChanged
  | TypeChanged
  | Dissolved
deriving DecidableEq, Repr

/-- Connection event for tracking relationship changes
(relationship_manager `ConnectionEvent`). -/
structure ConnectionEvent where
  id : AgentId
  agent1_id : AgentId
  agent2_id : AgentId
  event_type : ConnectionEventType
  timestamp : Int
  strength_change : ℚ
deriving DecidableEq, Repr

/-- Configuration for relationship dynamics (relationship_manager
`RelationshipConfigs`); `Default::default()` values. -/
structure RelationshipConfigs where
  max_strength : ℚ
  min_strength : ℚ
  decay_rate : ℚ
  evolution_threshold : ℚ
deriving DecidableEq, Repr

/-- `RelationshipConfigs::default()`. -/
def RelationshipConfigs.default : RelationshipConfigs :=
  ⟨1.0, 0.0, 0.001, 0.8⟩

/-- Relationship update result (relationship_manager `RelationshipUpdate`). -/
structure RelationshipUpdate where
  agent1_id : AgentId
  agent2_id : AgentId
  old_strength : ℚ
  new_strength : ℚ
  connection_type : ConnectionType
deriving DecidableEq, Repr

/-- Association-list lookup, modelling `HashMap::get`. -/
def lookupA {β : Type} : List (AgentId × β) → AgentId → Option β
  | [], _ => none
  | (k, v) :: rest, a => if k = a then some v else lookupA rest a

/-- Association-list insert-or-replace, modelling `HashMap::insert` /
the write-back of an `entry(..)` mutation; keeps keys unique. -/
def setA {β : Type} : List (AgentId × β) → AgentId → β → List (AgentId × β)
  | [], a, v => [(a, v)]
  | (k, w) :: rest, a, v =>
      if k = a then (a, v) :: rest else (k, w) :: setA rest a v

/-- Replace the first element satisfying `p` by `f` of it, modelling a
mutation through an `iter_mut().find(..)` reference. -/
def modifyFirst {α : Type} (p : α → Bool) (f : α → α) : List α → List α
  | [] => []
  | x :: xs => if p x then f x :: xs else x :: modifyFirst p f xs

/-- `x.clamp(0.0, 1.0)` on `f32`, over `ℚ`. -/
def clampQ (x : ℚ) : ℚ := min (max x 0) 1

/-- Relationship manager state (relationship_manager `RelationshipManager`). -/
structure RelationshipManager where
  relationships : List (AgentId × List AgentRelationship)
  connection_history : List ConnectionEvent
  relationship_configs : RelationshipConfigs
deriving DecidableEq, Repr

namespace RelationshipManager

/-- `RelationshipManager::new()`. -/
def new : RelationshipManager := ⟨[], [], RelationshipConfigs.default⟩

/-- The relationship list stored for `a`
(`self.relationships.get(&a)` defaulting to empty). -/
def relsOf (m : RelationshipManager) (a : AgentId) : List AgentRelationship :=
  (lookupA m.relationships a).getD []

/-- `self.relationships.entry(a).or_insert_with(Vec::new).push(r)`. -/
def pushRel (rels : List (AgentId × List AgentRelationship)) (a : AgentId)
    (r : AgentRelationship) : List (AgentId × List AgentRelationship) :=
  setA rels a (((lookupA rels a).getD []) ++ [r])

/-- `RelationshipManager::calculate_strength_change`: base change from the
outcome times a type modifier obtained by a (case-sensitive) `match` on the
interaction-type string. -/
def calculate_strength_change (inter : AgentInteraction) : ℚ :=
  let base_change : ℚ :=
    match inter.outcome with
    | .Successful => 0.1
    | .Partial => 0.05
    | .Failed => -0.05
    | .Pending => 0.0
  let type_modifier : ℚ :=
    match inter.interaction_type with
    | "collaboration" => 1.5
    | "mentorship" => 1.3
    | "competition" => 0.8
    | "data_sharing" => 1.2
    | "consultation" => 1.1
    | _ => 1.0
  base_change * type_modifier

/-- The in-place mutation block of `update_relationship` (lines 52–67):
clamp the new strength, bump the timestamp and the interaction count, then
evolve the connection type when the (updated) strength exceeds 0.9 and the
(updated) count exceeds 10. -/
def applyInteractionToRel (r : AgentRelationship) (strength_change : ℚ)
    (ts : Int) : AgentRelationship :=
  let strength := clampQ (r.strength + strength_change)
  let count := r.interaction_count + 1
  let ct :=
    if strength > 0.9 ∧ count > 10 then
      match r.connection_type with
      | .Professional => ConnectionType.Friendship
      | .Mentorship => ConnectionType.Collaboration
      | .Competition => ConnectionType.Professional
      | .DataSharing => ConnectionType.Collaboration
      | .Consultation => ConnectionType.Mentorship
      | t => t
    else r.connection_type
  { r with strength := strength, last_interaction := ts,
           interaction_count := count, connection_type := ct }

/-- `RelationshipManager::get_or_create_relationship`: return the existing
`a1 → a2` record, or create the pair of records (both directions, strength
0.1, kind Professional, count 0) and return the fresh `a1 → a2` one. -/
def get_or_create_relationship (m : RelationshipManager) (a1 a2 : AgentId)
    (now : Int) : RelationshipManager × AgentRelationship :=
  let rels1 := m.relsOf a1
  match rels1.find? (fun r => r.other_agent_id == a2) with
  | some r => (m, r)
  | none =>
      let new_relationship : AgentRelationship :=
        ⟨0, a1, a2, .Professional, 0.1, now, now, 0⟩
      let reverse_relationship : AgentRelationship :=
        ⟨0, a2, a1, .Professional, 0.1, now, now, 0⟩
      (⟨pushRel (pushRel m.relationships a1 new_relationship)
          a2 reverse_relationship,
        m.connection_history, m.relationship_configs⟩,
       new_relationship)

/-- `RelationshipManager::update_relationship`: validate the participant
count, compute the strength change, get or create the relationship, mutate
it in place, append a `StrengthChanged` connection event, and return the
update summary.  An error leaves the state untouched. -/
def update_relationship (m : RelationshipManager) (inter : AgentInteraction)
    (now : Int) : RelationshipManager × Except String RelationshipUpdate :=
  if inter.participants.length ≠ 2 then
    (m, .error "Interaction must have exactly 2 participants")
  else
    let agent1_id := inter.participants.getD 0 0
    let agent2_id := inter.participants.getD 1 0
    let strength_change := calculate_strength_change inter
    let mr := m.get_or_create_relationship agent1_id agent2_id now
    let m1 := mr.1
    let r := mr.2
    let r2 := applyInteractionToRel r strength_change inter.timestamp
    let m2 : RelationshipManager :=
      ⟨setA m1.relationships agent1_id
          (modifyFirst (fun q => q.other_agent_id == agent2_id) (fun _ => r2)
            (m1.relsOf agent1_id)),
       m1.connection_history ++
         [⟨0, agent1_id, agent2_id, .StrengthChanged, now, strength_change⟩],
       m1.relationship_configs⟩
    (m2, .ok ⟨agent1_id, agent2_id, r.strength, r2.strength, r2.connection_type⟩)

/-- `RelationshipManager::get_total_relationships`: sum of the lengths of
all per-agent relationship lists. -/
def get_total_relationships (m : RelationshipManager) : Nat :=
  (m.relationships.map (fun p => p.2.length)).sum

/-- `RelationshipManager::get_total_agents`: `keys().count()`. -/
def get_total_agents (m : RelationshipManager) : Nat :=
  m.relationships.length

/-- `RelationshipManager::get_average_relationship_strength`. -/
def get_average_relationship_strength (m : RelationshipManager) : ℚ :=
  let all := (m.relationships.map (fun p => p.2)).flatten
  if all.isEmpty then 0
  else (all.map (fun r => r.strength)).sum / (all.length : ℚ)

end RelationshipManager

/-- `AgentRelationship::calculate_dynamic_strength`; `days` is the value of
`(Utc::now() - self.last_interaction).num_days()`, made an explicit
parameter.  A pure function of the record: it does not change it. -/
def AgentRelationship.calculate_dynamic_strength (r : AgentRelationship)
    (days : Int) : ℚ :=
  let strength := r.strength
  let decay_factor : ℚ := 1.0 - ((days : ℚ) * 0.01)
  let strength := strength * max decay_factor 0.5
  let frequency_boost : ℚ := min ((r.interaction_count : ℚ) / 100.0) 0.2
  let strength := strength + frequency_boost
  let type_modifier : ℚ :=
    match r.connection_type with
    | .Friendship => 1.2
    | .Collaboration => 1.1
    | .Mentorship => 1.0
    | .Professional => 0.9
    | .Learning => 0.8
    | .Competition => 0.4
    | .DataSharing => 0.9
    | .Consultation => 0.8
  clampQ (strength * type_modifier)

/-- Social learning result (shared-types `SocialLearningResult`). -/
structure SocialLearningResult where
  learning_effectiveness : ℚ
  knowledge_gained : String
  skill_improvements : List String
  relationship_impact : ℚ
deriving DecidableEq, Repr

/-- Types of learning (social_learning `LearningType`). -/
inductive LearningType where
  | SkillDevelopment
  | KnowledgeTransfer
  | ExperienceSharing
  | ProblemSolving
deriving DecidableEq, Repr

/-- Learning record for an agent (social_learning `LearningRecord`). -/
structure LearningRecord where
  id : AgentId
  agent_id : AgentId
  mentor_agent : AgentId
  knowledge_area : String
  learning_type : LearningType
  effectiveness : ℚ
  timestamp : Int
deriving DecidableEq, Repr

/-- Learning progress for an agent (social_learning `LearningProgress`). -/
structure LearningProgress where
  agent_id : AgentId
  total_learning_events : Nat
  skill_levels : List (String × ℚ)
  knowledge_areas : List String
  recent_learning : List LearningRecord
deriving DecidableEq, Repr

/-- Knowledge node (social_learning `KnowledgeNode`). -/
structure KnowledgeNode where
  id : String
  knowledge_area : String
  expertise_level : ℚ
  associated_agents : List AgentId
deriving DecidableEq, Repr

/-- Knowledge connection (social_learning `KnowledgeConnection`). -/
structure KnowledgeConnection where
  from_node : String
  to_node : String
  connection_strength : ℚ
  connection_type : String
deriving DecidableEq, Repr

/-- Knowledge graph (social_learning `KnowledgeGraph`); only ever
constructed empty by the analyzed operations. -/
structure KnowledgeGraph where
  nodes : List (String × KnowledgeNode)
  connections : List KnowledgeConnection
deriving DecidableEq, Repr

/-- `KnowledgeGraph::new()`. -/
def KnowledgeGraph.new : KnowledgeGraph := ⟨[], []⟩

/-- Social learning system state (social_learning `SocialLearningSystem`). -/
structure SocialLearningSystem where
  learning_records : List (AgentId × List LearningRecord)
  knowledge_graph : KnowledgeGraph
deriving DecidableEq, Repr

namespace SocialLearningSystem

/-- `SocialLearningSystem::new()`. -/
def new : SocialLearningSystem := ⟨[], KnowledgeGraph.new⟩

/-- The learning-record list stored for `a`
(`self.learning_records.get(&a)` defaulting to empty). -/
def recordsOf (s : SocialLearningSystem) (a : AgentId) : List LearningRecord :=
  (lookupA s.learning_records a).getD []

/-- `SocialLearningSystem::calculate_learning_effectiveness`: determined by
the interaction kind alone; the two agent parameters are ignored
(`_source_agent`, `_target_agent` in the source). -/
def calculate_learning_effectiveness (_s : SocialLearningSystem)
    (_source _target : AgentId) : SocialInteractionType → ℚ
  | .Mentorship => 0.9
  | .Teaching => 0.8
  | .Collaboration => 0.7
  | .KnowledgeSharing => 0.6
  | _ => 0.5

/-- `SocialLearningSystem::process_interaction`: computes the effectiveness
and returns a `SocialLearningResult`; it writes nothing — in particular no
learning record is appended, `learning_records` is only ever read — so the
state comes back unchanged. -/
def process_interaction (s : SocialLearningSystem) (source target : AgentId)
    (kind : SocialInteractionType) (_context : String) :
    SocialLearningSystem × SocialLearningResult :=
  let effectiveness := s.calculate_learning_effectiveness source target kind
  (s, ⟨effectiveness,
       "Gained knowledge from " ++ kind.displayLabel ++ " interaction",
       ["Communication"], effectiveness * 0.5⟩)

/-- `SocialLearningSystem::get_learning_progress`: the stored record count,
empty skill-level and knowledge-area collections, and the first five stored
records (`records.into_iter().take(5)` in storage order). -/
def get_learning_progress (s : SocialLearningSystem) (agent : AgentId) :
    LearningProgress :=
  ⟨agent, (s.recordsOf agent).length, [], [], (s.recordsOf agent).take 5⟩

/-- `SocialLearningSystem::get_total_learning_events`: sum of the lengths
of all per-agent record lists. -/
def get_total_learning_events (s : SocialLearningSystem) : Nat :=
  (s.learning_records.map (fun p => p.2.length)).sum

end SocialLearningSystem

/-- Agent network metrics (network_analyzer `AgentNetworkMetrics`). -/
structure AgentNetworkMetrics where
  agent_id : AgentId
  centrality : ℚ
  betweenness : ℚ
  clustering_coefficient : ℚ
  influence_score : ℚ
  active_relationships : Nat
  network_reach : Nat
  last_updated : Int
deriving DecidableEq, Repr

/-- `AgentNetworkMetrics::new`: all-zero metrics for an agent. -/
def AgentNetworkMetrics.new (agent_id : AgentId) (now : Int) :
    AgentNetworkMetrics :=
  ⟨agent_id, 0.0, 0.0, 0.0, 0.0, 0, 0, now⟩

/-- `AgentNetworkMetrics::update_for_interaction`: add an interaction-kind
keyed impact to centrality (half weight, capped at 1) and influence
(capped at 1), and bump the raw active-relationship counter. -/
def AgentNetworkMetrics.update_for_interaction (m : AgentNetworkMetrics)
    (interaction_type : SocialInteractionType) (now : Int) :
    AgentNetworkMetrics :=
  let impact : ℚ :=
    match interaction_type with
    | .Collaboration => 0.1
    | .Mentorship => 0.08
    | .KnowledgeSharing => 0.06
    | _ => 0.03
  { m with centrality := min (m.centrality + impact * 0.5) 1.0,
           influence_score := min (m.influence_score + impact) 1.0,
           active_relationships := m.active_relationships + 1,
           last_updated := now }

/-- Network impact of an interaction (network_analyzer `NetworkImpact`). -/
structure NetworkImpact where
  centrality_change : ℚ
  clustering_change : ℚ
  betweenness_change : ℚ
  influence_change : ℚ
deriving DecidableEq, Repr

/-- Influential agent summary (lib.rs `InfluentialAgent`). -/
structure InfluentialAgent where
  agent_id : AgentId
  influence_score : ℚ
  centrality : ℚ
  active_relationships : Nat
deriving DecidableEq, Repr

/-- Collaboration cluster (lib.rs `CollaborationCluster`). -/
structure CollaborationCluster where
  cluster_id : AgentId
  agents : List AgentId
  collaboration_strength : ℚ
  focus_areas : List String
deriving DecidableEq, Repr

/-- Network analyzer state (network_analyzer `NetworkAnalyzer`); the
`network_history` field is never written by the analyzed operations. -/
structure NetworkAnalyzer where
  network_metrics : List (AgentId × AgentNetworkMetrics)
deriving DecidableEq, Repr

namespace NetworkAnalyzer

/-- `NetworkAnalyzer::new()`. -/
def new : NetworkAnalyzer := ⟨[]⟩

/-- `NetworkAnalyzer::update_network_metrics`: get-or-insert a zeroed
record for the source then update it, then the same for the target (if the
two agents coincide the second step sees the update of the first, as, as with
`HashMap::entry`). -/
def update_network_metrics (na : NetworkAnalyzer)
    (source_agent target_agent : AgentId) (ty : SocialInteractionType)
    (now : Int) : NetworkAnalyzer :=
  let source_metrics :=
    (lookupA na.network_metrics source_agent).getD
      (AgentNetworkMetrics.new source_agent now)
  let na1 : NetworkAnalyzer :=
    ⟨setA na.network_metrics source_agent
      (source_metrics.update_for_interaction ty now)⟩
  let target_metrics :=
    (lookupA na1.network_metrics target_agent).getD
      (AgentNetworkMetrics.new target_agent now)
  ⟨setA na1.network_metrics target_agent
    (target_metrics.update_for_interaction ty now)⟩

/-- `NetworkAnalyzer::get_network_impact`: a fixed constant vector. -/
def get_network_impact (_na : NetworkAnalyzer)
    (_source _target : AgentId) : NetworkImpact :=
  ⟨0.01, 0.005, 0.008, 0.02⟩

/-- `NetworkAnalyzer::get_agent_metrics`: stored record or a fresh zeroed
one. -/
def get_agent_metrics (na : NetworkAnalyzer) (agent_id : AgentId)
    (now : Int) : AgentNetworkMetrics :=
  (lookupA na.network_metrics agent_id).getD
    (AgentNetworkMetrics.new agent_id now)

/-- Stable insertion into a list sorted descending by influence score,
modelling the stable Rust `sort_by` with a descending comparator. -/
def insertByInfluence (x : InfluentialAgent) :
    List InfluentialAgent → List InfluentialAgent
  | [] => [x]
  | y :: ys =>
      if x.influence_score > y.influence_score then x :: y :: ys
      else y :: insertByInfluence x ys

/-- `NetworkAnalyzer::get_most_influential_agents`: top 10 by descending
influence score. -/
def get_most_influential_agents (na : NetworkAnalyzer) :
    List InfluentialAgent :=
  let agents := na.network_metrics.map (fun p =>
    InfluentialAgent.mk p.1 p.2.influence_score p.2.centrality
      p.2.active_relationships)
  (agents.foldl (fun acc a => insertByInfluence a acc) []).take 10

/-- `NetworkAnalyzer::get_collaboration_clusters`: the literal stub value
(its random UUIDs modelled as 0). -/
def get_collaboration_clusters (_na : NetworkAnalyzer) :
    List CollaborationCluster :=
  [⟨0, [0, 0], 0.8, ["AI Development", "Research"]⟩]

end NetworkAnalyzer

/-- Social event record (lib.rs `SocialEvent`). -/
structure SocialEvent where
  id : AgentId
  source_agent : AgentId
  target_agent : AgentId
  interaction_type : SocialInteractionType
  context : String
  timestamp : Int
  learning_outcome : SocialLearningResult
  relationship_impact : ℚ
deriving DecidableEq, Repr

/-- Result of a social interaction (lib.rs `SocialInteractionResult`). -/
structure SocialInteractionResult where
  relationship_update : RelationshipUpdate
  learning_result : SocialLearningResult
  network_impact : NetworkImpact
deriving DecidableEq, Repr

/-- Network analytics snapshot (lib.rs `NetworkAnalytics`). -/
structure NetworkAnalytics where
  total_agents : Nat
  total_relationships : Nat
  network_density : ℚ
  learning_events : Nat
  average_relationship_strength : ℚ
  most_influential_agents : List InfluentialAgent
  collaboration_clusters : List CollaborationCluster
deriving DecidableEq, Repr

/-- The social engine (lib.rs `SocialEngine`). -/
structure SocialEngine where
  relationship_manager : RelationshipManager
  social_learning_system : SocialLearningSystem
  network_analyzer : NetworkAnalyzer
  social_events : List SocialEvent
deriving DecidableEq, Repr

namespace SocialEngine

/-- `SocialEngine::new()`. -/
def new : SocialEngine :=
  ⟨RelationshipManager.new, SocialLearningSystem.new, NetworkAnalyzer.new, []⟩

/-- `SocialEngine::process_social_interaction`: build an `AgentInteraction`
with participants `[source, target]`, interaction-type string
`format!("{:?}", interaction_type)` and outcome `Successful`; then update
the relationship, process social learning, update network metrics, append
a social event, and return the composite result.  An error from the
relationship update propagates (`?`) before the later steps run. -/
def process_social_interaction (e : SocialEngine)
    (source_agent target_agent : AgentId)
    (interaction_type : SocialInteractionType) (context : String)
    (now : Int) : SocialEngine × Except String SocialInteractionResult :=
  let interaction : AgentInteraction :=
    ⟨0, now, [source_agent, target_agent], interaction_type.debugLabel,
     context, .Successful⟩
  let rmres := e.relationship_manager.update_relationship interaction now
  match rmres.2 with
  | .error msg => ({ e with relationship_manager := rmres.1 }, .error msg)
  | .ok relationship_update =>
      let slres := e.social_learning_system.process_interaction source_agent
        target_agent interaction_type context
      let learning_result := slres.2
      let na1 := e.network_analyzer.update_network_metrics source_agent
        target_agent interaction_type now
      let social_event : SocialEvent :=
        ⟨0, source_agent, target_agent, interaction_type, context, now,
         learning_result,
         |relationship_update.new_strength - relationship_update.old_strength|⟩
      (⟨rmres.1, slres.1, na1, e.social_events ++ [social_event]⟩,
       .ok ⟨relationship_update, learning_result,
            na1.get_network_impact source_agent target_agent⟩)

/-- `SocialEngine::get_network_analytics`: totals from the stores and the
density formula `relationships / (agents*(agents-1)/2)` guarded by
`agents > 1`. -/
def get_network_analytics (e : SocialEngine) : NetworkAnalytics :=
  let total_relationships :=
    e.relationship_manager.get_total_relationships
  let total_agents := e.relationship_manager.get_total_agents
  let learning_events :=
    e.social_learning_system.get_total_learning_events
  let network_density : ℚ :=
    if total_agents > 1 then
      (total_relationships : ℚ) /
        (((total_agents * (total_agents - 1) : Nat) : ℚ) / 2.0)
    else 0.0
  ⟨total_agents, total_relationships, network_density, learning_events,
   e.relationship_manager.get_average_relationship_strength,
   e.network_analyzer.get_most_influential_agents,
   e.network_analyzer.get_collaboration_clusters⟩

end SocialEngine

/-! Helper lemmas about the association-list model and clamping. -/

theorem lookupA_setA_self {β : Type} (l : List (AgentId × β)) (a : AgentId)
    (v : β) : lookupA (setA l a v) a = some v := by
  induction l with
  | nil => simp [setA, lookupA]
  | cons p rest ih =>
      obtain ⟨k, w⟩ := p
      by_cases h : k = a
      · simp [setA, h, lookupA]
      · simp [setA, h, lookupA, ih]

theorem lookupA_setA_ne {β : Type} (l : List (AgentId × β)) (a b : AgentId)
    (v : β) (h : b ≠ a) : lookupA (setA l a v) b = lookupA l b := by
  induction l with
  | nil => simp [setA, lookupA, Ne.symm h]
  | cons p rest ih =>
      obtain ⟨k, w⟩ := p
      by_cases hk : k = a
      · subst hk
        simp [setA, lookupA, Ne.symm h]
      · by_cases hb : k = b
        · subst hb
          simp [setA, hk, lookupA]
        · simp [setA, hk, lookupA, hb, ih]

theorem mem_setA {β : Type} {l : List (AgentId × β)} {a : AgentId} {v : β}
    {p : AgentId × β} (hp : p ∈ setA l a v) : p = (a, v) ∨ p ∈ l := by
  induction l with
  | nil => simpa [setA] using hp
  | cons q rest ih =>
      obtain ⟨k, w⟩ := q
      by_cases h : k = a
      · simp only [setA, if_pos h, List.mem_cons] at hp
        rcases hp with hp | hp
        · exact Or.inl hp
        · exact Or.inr (List.mem_cons_of_mem _ hp)
      · simp only [setA, if_neg h, List.mem_cons] at hp
        rcases hp with hp | hp
        · exact Or.inr (by simp [hp])
        · rcases ih hp with hh | hh
          · exact Or.inl hh
          · exact Or.inr (List.mem_cons_of_mem _ hh)

theorem lookupA_mem {β : Type} {l : List (AgentId × β)} {a : AgentId} {v : β}
    (h : lookupA l a = some v) : (a, v) ∈ l := by
  induction l with
  | nil => simp [lookupA] at h
  | cons q rest ih =>
      obtain ⟨k, w⟩ := q
      by_cases hk : k = a
      · subst hk
        simp only [lookupA, if_true, eq_self_iff_true, if_pos,
          Option.some.injEq] at h
        simp [← h]
      · simp only [lookupA, if_neg hk] at h
        exact List.mem_cons_of_mem _ (ih h)

theorem mem_modifyFirst {α : Type} {p : α → Bool} {f : α → α} {l : List α}
    {x : α} (hx : x ∈ modifyFirst p f l) : x ∈ l ∨ ∃ y, y ∈ l ∧ x = f y := by
  induction l with
  | nil => simp [modifyFirst] at hx
  | cons z rest ih =>
      by_cases h : p z
      · simp only [modifyFirst, if_pos h, List.mem_cons] at hx
        rcases hx with hx | hx
        · exact Or.inr ⟨z, by simp, hx⟩
        · exact Or.inl (List.mem_cons_of_mem _ hx)
      · simp only [modifyFirst, if_neg h, List.mem_cons] at hx
        rcases hx with hx | hx
        · exact Or.inl (by simp [hx])
        · rcases ih hx with hh | ⟨y, hy, hxy⟩
          · exact Or.inl (List.mem_cons_of_mem _ hh)
          · exact Or.inr ⟨y, List.mem_cons_of_mem _ hy, hxy⟩

theorem clampQ_nonneg (x : ℚ) : 0 ≤ clampQ x :=
  le_min (le_max_right x 0) zero_le_one

theorem clampQ_le_one (x : ℚ) : clampQ x ≤ 1 :=
  min_le_right _ _

/-- C1: on a fresh `SocialEngine`, `process_social_interaction(X, Y,
Collaboration, context)` yields old strength 0.1 and new strength 0.2 —
not the claimed 0.25.  The orchestrator labels the interaction with the
`Debug` string "Collaboration", which the case-sensitive matcher in
`calculate_strength_change` (expecting "collaboration") sends to the
default ×1.0 modifier, so the delta is 0.10, not 0.10 × 1.5. -/
theorem collaboration_pipeline_strength_values :
    (SocialEngine.new.process_social_interaction 0 1
        .Collaboration "demo" 0).2.map
        (fun r => (r.relationship_update.old_strength,
                   r.relationship_update.new_strength)) =
      Except.ok ((0.1 : ℚ), (0.2 : ℚ)) ∧ (0.2 : ℚ) ≠ 0.1 + 0.1 * 1.5 := by
  constructor
  · simp [SocialEngine.new, SocialEngine.process_social_interaction,
      RelationshipManager.new, RelationshipManager.update_relationship,
      RelationshipManager.calculate_strength_change,
      RelationshipManager.get_or_create_relationship,
      RelationshipManager.relsOf, RelationshipManager.pushRel,
      RelationshipManager.applyInteractionToRel,
      lookupA, setA, modifyFirst, clampQ, SocialInteractionType.debugLabel,
      RelationshipConfigs.default, Except.map]
    norm_num
  · norm_num

/-- C2 counterexample: the interaction-type label "Collaboration" (the
casing actually produced by the orchestrator) is claimed to yield the
×1.5 modifier under a case-insensitive match, i.e. a Successful change of
0.1 × 1.5; the case-sensitive match of the code gives 0.1 × 1.0 instead. -/
theorem strength_modifier_case_sensitive_counterexample :
    RelationshipManager.calculate_strength_change
        ⟨0, 0, [7, 8], "Collaboration", "c", .Successful⟩ = 0.1 ∧
    RelationshipManager.calculate_strength_change
        ⟨0, 0, [7, 8], "Collaboration", "c", .Successful⟩ ≠ 0.1 * 1.5 := by
  constructor
  · simp [RelationshipManager.calculate_strength_change]
    norm_num
  · simp [RelationshipManager.calculate_strength_change]
    norm_num

/-- C2 (amended): the type modifier is a case-sensitive exact match on the
interaction-kind label: "collaboration" ×1.5, "mentorship" ×1.3,
"competition" ×0.8, "data_sharing" ×1.2, "consultation" ×1.1, and every
other string — including every other casing of those words — ×1.0,
applied to the base change of the outcome. -/
theorem calculate_strength_change_exact_match (i : AgentInteraction) :
    RelationshipManager.calculate_strength_change i =
      (match i.outcome with
       | .Successful => (0.1 : ℚ)
       | .Partial => 0.05
       | .Failed => -0.05
       | .Pending => 0.0) *
      (if i.interaction_type = "collaboration" then (1.5 : ℚ)
       else if i.interaction_type = "mentorship" then 1.3
       else if i.interaction_type = "competition" then 0.8
       else if i.interaction_type = "data_sharing" then 1.2
       else if i.interaction_type = "consultation" then 1.1
       else 1.0) := by
  obtain ⟨idv, ts, ps, s, c, o⟩ := i
  unfold RelationshipManager.calculate_strength_change
  dsimp only
  congr 1
  split
  · simp
  · simp
  · simp
  · simp
  · simp
  · rename_i h1 h2 h3 h4 h5
    rw [if_neg h1, if_neg h2, if_neg h3, if_neg h4, if_neg h5]

/-- C3 counterexample: one `process_interaction` call on a fresh Learning
Tracker appends nothing — the store comes back identical, so
`get_learning_progress` still reports 0 learning events for the agent,
not the 1 the claim requires. -/
theorem learning_record_not_appended_counterexample :
    (SocialLearningSystem.new.process_interaction 0 1 .Collaboration "c").1 =
      SocialLearningSystem.new ∧
    ((SocialLearningSystem.new.process_interaction 0 1
        .Collaboration "c").1.get_learning_progress 0).total_learning_events
      = 0 ∧
    (0 : Nat) ≠ 1 :=
  ⟨rfl, rfl, by decide⟩

/-- C3 (amended): `process_interaction` appends no learning record — the
learning-record store is returned unchanged, `learning_records` being only
ever read — and `get_learning_progress(agent)` reports the count of the
records already stored for the agent, empty skill-level and knowledge-area
collections, and the first five stored records in storage order. -/
theorem learning_tracker_progress_after_interaction
    (s : SocialLearningSystem) (a b : AgentId)
    (kind : SocialInteractionType) (context : String) :
    (s.process_interaction a b kind context).1 = s ∧
    ((s.process_interaction a b kind context).1).get_learning_progress a =
      ⟨a, (s.recordsOf a).length, [], [], (s.recordsOf a).take 5⟩ := by
  constructor
  · rfl
  · rfl

/-- C4: when no relationship exists in either direction between distinct
agents `a` and `b`, processing their first interaction creates both the
`a → b` and the `b → a` record, each with strength 0.1, kind Professional
and interaction count 0 (and hands the fresh `a → b` record to the update
step). -/
theorem first_interaction_creates_both_directions
    (m : RelationshipManager) (a b : AgentId) (now : Int) (hab : a ≠ b)
    (ha : ∀ r ∈ m.relsOf a, r.other_agent_id ≠ b)
    (_hb : ∀ r ∈ m.relsOf b, r.other_agent_id ≠ a) :
    (m.get_or_create_relationship a b now).1.relsOf a =
      m.relsOf a ++ [⟨0, a, b, .Professional, 0.1, now, now, 0⟩] ∧
    (m.get_or_create_relationship a b now).1.relsOf b =
      m.relsOf b ++ [⟨0, b, a, .Professional, 0.1, now, now, 0⟩] ∧
    (m.get_or_create_relationship a b now).2 =
      ⟨0, a, b, .Professional, 0.1, now, now, 0⟩ := by
  have hfind : (m.relsOf a).find? (fun r => r.other_agent_id == b) = none := by
    apply List.find?_eq_none.mpr
    intro r hr
    simpa using ha r hr
  have h1 : ∀ (l : List (AgentId × List AgentRelationship)) v,
      lookupA (setA l b v) a = lookupA l a :=
    fun l v => lookupA_setA_ne l b a v hab
  have h2 : ∀ (l : List (AgentId × List AgentRelationship)) v,
      lookupA (setA l a v) b = lookupA l b :=
    fun l v => lookupA_setA_ne l a b v (Ne.symm hab)
  unfold RelationshipManager.get_or_create_relationship
  dsimp only
  rw [hfind]
  simp only [RelationshipManager.relsOf, RelationshipManager.pushRel,
    lookupA_setA_self, h1, h2, Option.getD_some]
  exact ⟨trivial, trivial, trivial⟩

/-- Witness for C4: first contact between agents 0 and 1 on an empty
relationship manager. -/
theorem first_interaction_creates_both_directions_witness :
    (RelationshipManager.new.get_or_create_relationship 0 1 5).1.relsOf 0 =
      RelationshipManager.new.relsOf 0 ++
        [⟨0, 0, 1, .Professional, 0.1, 5, 5, 0⟩] ∧
    (RelationshipManager.new.get_or_create_relationship 0 1 5).1.relsOf 1 =
      RelationshipManager.new.relsOf 1 ++
        [⟨0, 1, 0, .Professional, 0.1, 5, 5, 0⟩] ∧
    (RelationshipManager.new.get_or_create_relationship 0 1 5).2 =
      ⟨0, 0, 1, .Professional, 0.1, 5, 5, 0⟩ :=
  first_interaction_creates_both_directions RelationshipManager.new 0 1 5
    (by decide)
    (by simp [RelationshipManager.relsOf, RelationshipManager.new, lookupA])
    (by simp [RelationshipManager.relsOf, RelationshipManager.new, lookupA])

/-- The connection-kind promotion map stated by the specification:
Professional→Friendship, Mentorship→Collaboration, Competition→Professional,
DataSharing→Collaboration, Consultation→Mentorship, and no mapped successor
for the remaining kinds. -/
def promotionMapSpec : ConnectionType → ConnectionType
  | .Professional => .Friendship
  | .Mentorship => .Collaboration
  | .Competition => .Professional
  | .DataSharing => .Collaboration
  | .Consultation => .Mentorship
  | t => t

/-- C6: in the update step of `update_relationship` the connection kind is
promoted along the fixed map of the spec exactly when the updated strength
exceeds 0.9 and the updated interaction count exceeds 10; otherwise — and
for every kind the map sends to itself (Collaboration, Friendship,
Learning) — the kind is unchanged, so no update ever demotes a kind. -/
theorem connection_type_promotion_rule (r : AgentRelationship) (sc : ℚ)
    (ts : Int) :
    ((RelationshipManager.applyInteractionToRel r sc ts).strength > 0.9 ∧
        (RelationshipManager.applyInteractionToRel r sc ts).interaction_count
          > 10 →
      (RelationshipManager.applyInteractionToRel r sc ts).connection_type =
        promotionMapSpec r.connection_type) ∧
    (¬ ((RelationshipManager.applyInteractionToRel r sc ts).strength > 0.9 ∧
        (RelationshipManager.applyInteractionToRel r sc ts).interaction_count
          > 10) →
      (RelationshipManager.applyInteractionToRel r sc ts).connection_type =
        r.connection_type) ∧
    (promotionMapSpec r.connection_type = r.connection_type →
      (RelationshipManager.applyInteractionToRel r sc ts).connection_type =
        r.connection_type) := by
  unfold RelationshipManager.applyInteractionToRel
  dsimp only
  by_cases h : clampQ (r.strength + sc) > 0.9 ∧ r.interaction_count + 1 > 10
  · rw [if_pos h]
    refine ⟨fun _ => ?_, fun hn => absurd h hn, fun hfix => ?_⟩
    · cases r.connection_type <;> simp [promotionMapSpec]
    · revert hfix
      cases r.connection_type <;> simp [promotionMapSpec]
  · rw [if_neg h]
    exact ⟨fun hc => absurd hc h, fun _ => rfl, fun _ => rfl⟩

/-- Witness for C6: an 11th interaction pushing a Professional relationship
of strength 0.85 over both thresholds promotes it (to Friendship per the
map). -/
theorem connection_type_promotion_rule_witness :
    (RelationshipManager.applyInteractionToRel
        ⟨0, 0, 1, .Professional, 0.85, 0, 0, 10⟩ 0.1 1).connection_type =
      promotionMapSpec ConnectionType.Professional :=
  (connection_type_promotion_rule ⟨0, 0, 1, .Professional, 0.85, 0, 0, 10⟩
      0.1 1).1
    (by constructor
        · norm_num [RelationshipManager.applyInteractionToRel, clampQ]
        · norm_num [RelationshipManager.applyInteractionToRel])

/-- C8: `update_relationship` fails exactly when the interaction does not
name exactly two participants, and in that case the relationship manager —
its ledger and its connection-event log — is returned unchanged. -/
theorem update_relationship_error_iff_and_no_mutation
    (m : RelationshipManager) (inter : AgentInteraction) (now : Int) :
    ((∃ msg, (m.update_relationship inter now).2 = Except.error msg) ↔
      inter.participants.length ≠ 2) ∧
    (inter.participants.length ≠ 2 →
      (m.update_relationship inter now).1 = m) := by
  by_cases h : inter.participants.length = 2
  · constructor
    · constructor
      · intro ⟨msg, hmsg⟩
        rw [RelationshipManager.update_relationship, if_neg (by simp [h])]
          at hmsg
        simp at hmsg
      · intro hn
        exact absurd h hn
    · intro hn
      exact absurd h hn
  · constructor
    · constructor
      · intro _
        exact h
      · intro _
        rw [RelationshipManager.update_relationship, if_pos h]
        exact ⟨"Interaction must have exactly 2 participants", rfl⟩
    · intro _
      rw [RelationshipManager.update_relationship, if_pos h]

/-- Witness for C8: a one-participant interaction on a fresh manager
leaves the manager untouched. -/
theorem update_relationship_no_mutation_witness :
    (RelationshipManager.new.update_relationship
        ⟨0, 0, [3], "collaboration", "c", .Successful⟩ 0).1 =
      RelationshipManager.new :=
  (update_relationship_error_iff_and_no_mutation RelationshipManager.new
      ⟨0, 0, [3], "collaboration", "c", .Successful⟩ 0).2 (by decide)

/-- C9: `calculate_dynamic_strength` is a pure read of the record — the
embedding is a function of the record and the elapsed days, so repeated
calls agree — and for every non-negative elapsed-days value it returns
`clamp((stored * max(1 - d*0.01, 0.5) + min(count/100, 0.2)) * modifier,
0, 1)` with the per-kind modifier table of the spec. -/
theorem calculate_dynamic_strength_formula (r : AgentRelationship)
    (d : Int) (_hd : 0 ≤ d) :
    r.calculate_dynamic_strength d =
      clampQ ((r.strength * max (1 - (d : ℚ) * 0.01) 0.5 +
          min ((r.interaction_count : ℚ) / 100) 0.2) *
        (match r.connection_type with
         | .Friendship => (1.2 : ℚ)
         | .Collaboration => 1.1
         | .Mentorship => 1.0
         | .Professional => 0.9
         | .Learning => 0.8
         | .Competition => 0.4
         | .DataSharing => 0.9
         | .Consultation => 0.8)) := by
  unfold AgentRelationship.calculate_dynamic_strength
  cases r.connection_type <;> norm_num

/-- Witness for C9: a Friendship record of strength 0.5 with 30 prior
interactions, read 10 days after its last interaction. -/
theorem calculate_dynamic_strength_formula_witness :
    AgentRelationship.calculate_dynamic_strength
        ⟨0, 0, 1, .Friendship, 0.5, 0, 0, 30⟩ 10 =
      clampQ ((0.5 * max (1 - ((10 : Int) : ℚ) * 0.01) 0.5 +
          min (((30 : Nat) : ℚ) / 100) 0.2) * 1.2) :=
  calculate_dynamic_strength_formula ⟨0, 0, 1, .Friendship, 0.5, 0, 0, 30⟩
    10 (by norm_num)

/-- The clamping invariant: every relationship stored in any per-agent list
has strength within `[0, 1]`. -/
def InvL (L : List (AgentId × List AgentRelationship)) : Prop :=
  ∀ p ∈ L, ∀ r ∈ p.2, 0 ≤ r.strength ∧ r.strength ≤ 1

/-- The clamping invariant, read off a relationship manager. -/
def RelationshipManager.StrengthsInRange (m : RelationshipManager) : Prop :=
  InvL m.relationships

theorem InvL_getD {L : List (AgentId × List AgentRelationship)} {a : AgentId}
    {q : AgentRelationship} (h : InvL L) (hq : q ∈ (lookupA L a).getD []) :
    0 ≤ q.strength ∧ q.strength ≤ 1 := by
  cases hl : lookupA L a with
  | none => rw [hl] at hq; simp at hq
  | some v =>
      rw [hl] at hq
      simp only [Option.getD_some] at hq
      exact h (a, v) (lookupA_mem hl) q hq

theorem InvL_pushRel {L : List (AgentId × List AgentRelationship)}
    {a : AgentId} {r : AgentRelationship} (h : InvL L)
    (hr : 0 ≤ r.strength ∧ r.strength ≤ 1) :
    InvL (RelationshipManager.pushRel L a r) := by
  intro p hp q hq
  rcases mem_setA hp with hpe | hp2
  · rw [hpe] at hq
    rcases List.mem_append.mp hq with hql | hqr
    · exact InvL_getD h hql
    · rw [List.mem_singleton.mp hqr]
      exact hr
  · exact h p hp2 q hq

theorem get_or_create_preserves_range (m : RelationshipManager)
    (a b : AgentId) (now : Int) (hm : m.StrengthsInRange) :
    (m.get_or_create_relationship a b now).1.StrengthsInRange := by
  unfold RelationshipManager.get_or_create_relationship
  dsimp only
  cases hf : List.find? (fun r => r.other_agent_id == b) (m.relsOf a) with
  | some r => exact hm
  | none =>
      exact InvL_pushRel (InvL_pushRel hm (by norm_num)) (by norm_num)

theorem update_preserves_range {m : RelationshipManager}
    (inter : AgentInteraction) (now : Int) (hm : m.StrengthsInRange) :
    (m.update_relationship inter now).1.StrengthsInRange := by
  unfold RelationshipManager.update_relationship
  by_cases h : inter.participants.length ≠ 2
  · rw [if_pos h]
    exact hm
  · rw [if_neg h]
    dsimp only
    have hm1 := get_or_create_preserves_range m
      (inter.participants.getD 0 0) (inter.participants.getD 1 0) now hm
    intro p hp q hq
    rcases mem_setA hp with hpe | hp2
    · rw [hpe] at hq
      rcases mem_modifyFirst hq with hql | ⟨y, _, hy⟩
      · exact InvL_getD hm1 hql
      · rw [hy]
        exact ⟨clampQ_nonneg _, clampQ_le_one _⟩
    · exact hm1 p hp2 q hq

/-- A sequence of `update_relationship` calls, each with its own
`Utc::now()` timestamp; an error leaves the state unchanged, as in the
source. -/
def apply_interactions (m : RelationshipManager)
    (l : List (AgentInteraction × Int)) : RelationshipManager :=
  l.foldl (fun acc p => (acc.update_relationship p.1 p.2).1) m

/-- C7: whatever sequence of interactions is applied through
`update_relationship`, starting from any state satisfying the clamping
invariant, the strength of every stored relationship stays in `[0, 1]` (each
intermediate state is `apply_interactions` of a prefix, so the invariant
holds after each update). -/
theorem strengths_in_range_invariant (l : List (AgentInteraction × Int))
    (m : RelationshipManager) (hm : m.StrengthsInRange) :
    (apply_interactions m l).StrengthsInRange := by
  induction l generalizing m with
  | nil => simpa [apply_interactions] using hm
  | cons p rest ih =>
      simp only [apply_interactions, List.foldl_cons]
      exact ih _ (update_preserves_range p.1 p.2 hm)

/-- Witness for C7: one oversized-delta interaction starting from the
empty manager. -/
theorem strengths_in_range_invariant_witness :
    (apply_interactions RelationshipManager.new
        [(⟨0, 0, [0, 1], "collaboration", "c", .Successful⟩, 0)]).StrengthsInRange :=
  strengths_in_range_invariant _ RelationshipManager.new
    (by intro p hp
        simp [RelationshipManager.new] at hp)

theorem update_relationship_ok_of_two (m : RelationshipManager)
    (inter : AgentInteraction) (now : Int)
    (h : inter.participants.length = 2) :
    ∃ u, (m.update_relationship inter now).2 = Except.ok u := by
  rw [RelationshipManager.update_relationship, if_neg (by simp [h])]
  exact ⟨_, rfl⟩

/-- C10: the orchestrator always builds the interaction with the
two-element participant list `[source, target]`, so the participant-count
validation in `update_relationship` can never fire from
`process_social_interaction`, which therefore always returns a successful
result. -/
theorem process_social_interaction_never_errors (e : SocialEngine)
    (s t : AgentId) (ty : SocialInteractionType) (c : String) (now : Int) :
    ∃ res, (e.process_social_interaction s t ty c now).2 = Except.ok res := by
  obtain ⟨u, hu⟩ := update_relationship_ok_of_two e.relationship_manager
    ⟨0, now, [s, t], ty.debugLabel, c, .Successful⟩ now (by simp)
  unfold SocialEngine.process_social_interaction
  dsimp only
  rw [hu]
  exact ⟨_, rfl⟩

/-- C5 counterexample: two agents where every pair has interacted (one
Collaboration between agents 0 and 1) — full pairwise relationships — yet
the reported density is 2.0, not (tending to) 1.0, because each unordered
pair is stored as two directed records while the density denominator
counts unordered pairs. -/
theorem full_pairwise_density_two_counterexample :
    (SocialEngine.new.process_social_interaction 0 1 .Collaboration "demo"
        0).1.get_network_analytics.total_agents = 2 ∧
    (SocialEngine.new.process_social_interaction 0 1 .Collaboration "demo"
        0).1.get_network_analytics.total_relationships = 2 ∧
    (SocialEngine.new.process_social_interaction 0 1 .Collaboration "demo"
        0).1.get_network_analytics.network_density = 2 ∧
    (2 : ℚ) ≠ 1 := by
  refine ⟨?_, ?_, ?_, by norm_num⟩ <;>
    · simp [SocialEngine.new, SocialEngine.process_social_interaction,
        SocialEngine.get_network_analytics,
        RelationshipManager.new, RelationshipManager.update_relationship,
        RelationshipManager.calculate_strength_change,
        RelationshipManager.get_or_create_relationship,
        RelationshipManager.relsOf, RelationshipManager.pushRel,
        RelationshipManager.applyInteractionToRel,
        RelationshipManager.get_total_relationships,
        RelationshipManager.get_total_agents,
        lookupA, setA, modifyFirst, clampQ,
        SocialInteractionType.debugLabel, RelationshipConfigs.default]
      try norm_num

/-- C5 (amended): `get_network_analytics` reports density 0.0 for at most
one agent and `total_relationships / (total_agents*(total_agents-1)/2)`
otherwise; since relationships are stored directed (two records per
unordered pair), full pairwise relationships give
`total_relationships = total_agents*(total_agents-1)` and the reported
density is exactly 2.0, not 1.0. -/
theorem network_density_formula_and_full_pairwise (e : SocialEngine) :
    (e.get_network_analytics.total_agents ≤ 1 →
      e.get_network_analytics.network_density = 0) ∧
    (1 < e.get_network_analytics.total_agents →
      e.get_network_analytics.network_density =
        (e.get_network_analytics.total_relationships : ℚ) /
          (((e.get_network_analytics.total_agents *
              (e.get_network_analytics.total_agents - 1) : Nat) : ℚ) / 2) ∧
      (e.get_network_analytics.total_relationships =
          e.get_network_analytics.total_agents *
            (e.get_network_analytics.total_agents - 1) →
        e.get_network_analytics.network_density = 2)) := by
  unfold SocialEngine.get_network_analytics
  dsimp only
  constructor
  · intro h1
    rw [if_neg (by omega)]
    norm_num
  · intro h2
    constructor
    · rw [if_pos h2]
      norm_num
    · intro h3
      rw [if_pos h2, h3]
      have hpos : 0 < e.relationship_manager.get_total_agents *
          (e.relationship_manager.get_total_agents - 1) :=
        Nat.mul_pos (by omega) (by omega)
      have hne : ((e.relationship_manager.get_total_agents *
          (e.relationship_manager.get_total_agents - 1) : Nat) : ℚ) ≠ 0 := by
        exact_mod_cast Nat.pos_iff_ne_zero.mp hpos
      rw [div_div_eq_mul_div, mul_comm, mul_div_assoc, div_self hne, mul_one]
      norm_num

/-- Witness for C5: the two-agent full-pairwise network from the
counterexample run satisfies the amended density statement with value 2. -/
theorem network_density_formula_witness :
    (SocialEngine.new.process_social_interaction 0 1 .Collaboration "demo"
        0).1.get_network_analytics.network_density = 2 :=
  ((network_density_formula_and_full_pairwise
      (SocialEngine.new.process_social_interaction 0 1 .Collaboration "demo"
        0).1).2
    (by simp [SocialEngine.new, SocialEngine.process_social_interaction,
        SocialEngine.get_network_analytics,
        RelationshipManager.new, RelationshipManager.update_relationship,
        RelationshipManager.calculate_strength_change,
        RelationshipManager.get_or_create_relationship,
        RelationshipManager.relsOf, RelationshipManager.pushRel,
        RelationshipManager.applyInteractionToRel,
        RelationshipManager.get_total_agents,
        lookupA, setA, modifyFirst, clampQ,
        SocialInteractionType.debugLabel, RelationshipConfigs.default])).2
    (by simp [SocialEngine.new, SocialEngine.process_social_interaction,
        SocialEngine.get_network_analytics,
        RelationshipManager.new, RelationshipManager.update_relationship,
        RelationshipManager.calculate_strength_change,
        RelationshipManager.get_or_create_relationship,
        RelationshipManager.relsOf, RelationshipManager.pushRel,
        RelationshipManager.applyInteractionToRel,
        RelationshipManager.get_total_relationships,
        RelationshipManager.get_total_agents,
        lookupA, setA, modifyFirst, clampQ,
        SocialInteractionType.debugLabel, RelationshipConfigs.default])
